import Mathlib

/-!
Shallow embedding of `c19em_app.py`, the COVID-19 FOIA email search dashboard:
the predicate-composition pipeline that builds the SQL where clause and the
matching display string, the result limit and header marker, the result-grid
sizing, and the PDF-preview fetch logic.  The helper module `sqlgen` imported
by the app is not among the sources; its five helpers are modelled from the
spec and their doc comments say so.  Strings are embedded character-for-
character (single quotes written `\x27`, braces `\x7b`/`\x7d`).
-/

namespace C19

/-- The single-quote character. -/
def squote : Char := Char.ofNat 39

/-- The double-quote character. -/
def dquote : Char := Char.ofNat 34

/-- Python string slicing `s[:-n]` (drop the last `n` characters); Python
slices count code points, so this works on the character data. -/
def pyDropRight (s : String) (n : Nat) : String :=
  ⟨s.data.take (s.data.length - n)⟩

/-- Python string slicing `s[n:]` (drop the first `n` characters). -/
def pyDrop (s : String) (n : Nat) : String :=
  ⟨s.data.drop n⟩

/-- Embeds line 96, `ftq_text.replace("'", '"')`: every single quote of the
search text becomes a double quote. -/
def replace_quotes (s : String) : String :=
  ⟨s.data.map (fun c => if c = squote then dquote else c)⟩

/-- The indentation that the backslash line continuation inside the f-string
at lines 97-98 leaves in the SQL predicate (24 spaces). -/
def contsp24 : String := "                        "

/-- The indentation left by the continuation inside the f-string at lines
184-185 (17 spaces). -/
def contsp17 : String := "                 "

/-- Embeds lines 97-98: the full-text-search SQL predicate. -/
def ftq_predicate (t : String) : String :=
  "to_tsvector(\x27english\x27, body) @@ " ++ contsp24 ++
    "websearch_to_tsquery(\x27english\x27, \x27" ++ t ++ "\x27)"

/-- Embeds line 99: the full-text-search display predicate. -/
def ftq_display (t : String) : String :=
  "text body contains \x27" ++ t ++ "\x27"

/-- Embeds lines 104-107: the Postgres array literal listing the selected
entities, built by folding quoted-name-comma-space chunks onto `'\x7b` and
trimming the trailing comma-space before closing with `\x7d'`. -/
def entincl (es : List String) : String :=
  pyDropRight (es.foldl (fun acc e => acc ++ "\"" ++ e ++ "\", ") "\x27\x7b") 2 ++ "\x7d\x27"

/-- Embeds line 108: the entity overlap (array intersection) predicate. -/
def entity_predicate (es : List String) : String :=
  "entities && " ++ entincl es ++ "::text[]"

/-- Embeds lines 110-113: the display form of the entity filter
(`entincl[2:-2]` strips the array literal's delimiters). -/
def entity_explain (es : List String) : String :=
  let tq := if 1 < es.length then "at least one of" else ""
  " and email references " ++ tq ++ " " ++ pyDropRight (pyDrop (entincl es) 2) 2

/-- Spec-side form of the entity array literal's content, for comparison with
`entincl`: the selected names, each double-quoted, comma-separated, in
selection order. -/
def quoted_list : List String → String
  | [] => ""
  | [e] => "\"" ++ e ++ "\""
  | e :: rest => "\"" ++ e ++ "\", " ++ quoted_list rest

/-- Modelled from the spec: `sqlgen.add_predicate` (module `sqlgen` is not in
the sources).  The composer combines "only the predicates that are present",
so an absent (empty) predicate is not appended. -/
def add_predicate (preds : List String) (p : String) : List String :=
  if p = "" then preds else preds ++ [p]

/-- Modelled from the spec: `sqlgen.where_clause` — the present predicates,
"each correctly parenthesized and conjoined with `AND`", with no dangling
`AND`/`WHERE` when no predicate is present. -/
def where_clause (preds : List String) : String :=
  if preds = [] then ""
  else " where " ++ String.intercalate " and " (preds.map (fun p => "(" ++ p ++ ")"))

/-- Modelled from the spec: `sqlgen.lov_predicate` — topic equality against
the list of selected values, empty when nothing is selected. -/
def lov_predicate (col : String) (vals : List String) : String :=
  if vals = [] then ""
  else col ++ " in (" ++ String.intercalate ", " (vals.map (fun v => "\x27" ++ v ++ "\x27")) ++ ")"

/-- Modelled from the spec: row-level meaning of `lov_predicate` — the row's
value equals one of the selected values. -/
def lov_sat (rowval : String) (vals : List String) : Bool :=
  vals.contains rowval

/-- Dates are abstracted to proleptic Gregorian day ordinals (Python
`datetime.date.toordinal`), which order chronologically; the `%Y/%m/%d`
rendering done by `sqlgen.convert_daterange` is abstracted to `toString`. -/
def fmt_date (d : Nat) : String := toString d

/-- Modelled from the spec: `sqlgen.convert_daterange` — the optional start
and end of the selected range. -/
def convert_daterange (dates : Option (Nat × Nat)) : Option Nat × Option Nat :=
  match dates with
  | none => (none, none)
  | some (s, e) => (some s, some e)

/-- Modelled from the spec: `sqlgen.daterange_predicate` — an inclusive range
on the column, with an optional is-null disjunct controlled by the
include-null-dates flag, and empty when no range is selected.  The spec does
not describe any use of the min/max bounds the app passes along, so they are
unused here. -/
def daterange_predicate (col : String) (sd ed : Option Nat) (nulldate : Bool)
    (_mind _maxd : Nat) : String :=
  match sd, ed with
  | some s, some e =>
    let base := col ++ " between \x27" ++ fmt_date s ++ "\x27 and \x27" ++ fmt_date e ++ "\x27"
    if nulldate then "(" ++ base ++ " or " ++ col ++ " is null)" else base
  | _, _ => ""

/-- Modelled from the spec: row-level meaning of the date predicate — the sent
date lies inclusively between start and end, and a missing sent date passes
exactly when the include-null-dates flag is set. -/
def daterange_sat (sent : Option Nat) (s e : Nat) (nulldate : Bool) : Bool :=
  match sent with
  | none => nulldate
  | some d => decide (s ≤ d) && decide (d ≤ e)

/-- Embeds line 71, `datetime.date(2019, 11, 1)`, as a day ordinal. -/
def MIN_SENT : Nat := 737364

/-- Embeds line 72, `datetime.date(2021, 5, 8)`, as a day ordinal. -/
def MAX_SENT : Nat := 737918

/-- The search-form state (lines 74-85): full-text query, the three entity
multiselects, topic multiselect, optional date range, include-null-dates
checkbox. -/
structure Filters where
  ftq_text : String
  persons : List String
  orgs : List String
  locations : List String
  topics : List String
  dates : Option (Nat × Nat)
  null_date : Bool

/-- Embeds line 101: the selected entities, persons then organizations then
locations. -/
def entities (f : Filters) : List String :=
  f.persons ++ f.orgs ++ f.locations

/-- Embeds lines 92-125: the SQL predicate list built from the form state. -/
def sql_predicates (f : Filters) : List String :=
  let ps : List String := []
  let ps := if f.ftq_text = "" then ps
    else add_predicate ps (ftq_predicate (replace_quotes f.ftq_text))
  let ps := if entities f = [] then ps
    else add_predicate ps (entity_predicate (entities f))
  let ps := add_predicate ps (lov_predicate "topic" f.topics)
  let sded := convert_daterange f.dates
  add_predicate ps (daterange_predicate "sent" sded.1 sded.2 f.null_date MIN_SENT MAX_SENT)

/-- Embeds lines 92-125: the display predicate list built from the form
state, in lockstep with `sql_predicates`. -/
def display_predicates (f : Filters) : List String :=
  let ps : List String := []
  let ps := if f.ftq_text = "" then ps
    else add_predicate ps (ftq_display (replace_quotes f.ftq_text))
  let ps := if entities f = [] then ps
    else add_predicate ps (entity_explain (entities f))
  let ps := add_predicate ps (lov_predicate "topic" f.topics)
  let sded := convert_daterange f.dates
  add_predicate ps (daterange_predicate "sent" sded.1 sded.2 f.null_date MIN_SENT MAX_SENT)

/-- Embeds lines 87-91: the select-from prefix of the email query, with the
whitespace its triple-quoted literal carries. -/
def selfrom : String :=
  "select sent, subject, from_email \"from\", to_emails \"to\", \n                    foiarchive_file \"file\",  file_pg_start pg, email_id id, \n                    topic top_topic, entities, source_email_url,  preview_email_url\n            from covid19.dc19_emails\n        "

/-- Embeds line 130. -/
def MAX_LIMIT : Nat := 2000

/-- Embeds line 131: the executed email query. -/
def emqry (f : Filters) : String :=
  selfrom ++ where_clause (sql_predicates f) ++ (" limit " ++ toString MAX_LIMIT)

/-- A row of the email result set; only the fields the detail pane reads. -/
structure EmailRow where
  subject : String
  ents : String
  top_topic : String
  preview_email_url : String
  source_email_url : String

/-- Modelled from the spec: the database honors the trailing `limit` clause of
`emqry`, returning at most `MAX_LIMIT` rows of the full result. -/
def apply_limit (rows : List EmailRow) : List EmailRow :=
  rows.take MAX_LIMIT

/-- Embeds line 136: the results-header marker shown next to the row count. -/
def max_limit_marker (emcnt : Nat) : String :=
  if emcnt = MAX_LIMIT then "(max limit)" else ""

/-- Embeds line 156. -/
def base_height : Nat := 50

/-- Embeds line 157. -/
def row_height : Nat := 16

/-- Embeds line 158. -/
def max_height : Nat := 260

/-- Embeds lines 160-162: the grid height for a result count. -/
def total_height (emcnt : Nat) : Nat :=
  min (base_height + row_height * emcnt) max_height

/-- An HTTP response as consumed by the preview code. -/
structure HttpResponse where
  status_code : Nat
  content : String

/-- What the detail pane renders for a selected row. -/
inductive PreviewOutput
  | pdf (content : String)
  | failure (msg : String)
deriving DecidableEq

/-- Embeds lines 184-185: the inline error message for a failed fetch. -/
def failed_download_msg (url : String) (code : Nat) : String :=
  "Failed to download " ++ url ++ ", " ++ contsp17 ++ "status code: " ++ toString code ++ "."

/-- Embeds lines 177-185: for a selected row, the list of URLs fetched by
HTTP GET, and the rendered output. -/
def preview_email (url : String) (http_get : String → HttpResponse) :
    List String × PreviewOutput :=
  let response := http_get url
  ([url],
    if response.status_code = 200 then .pdf response.content
    else .failure (failed_download_msg url response.status_code))

/-- The first three characters of a string, used to tell the four predicate
shapes (and the empty string) apart. -/
def tag3 (s : String) : List Char := s.data.take 3

/-- The chunk string the entity fold produces: each name double-quoted and
followed by a comma-space. -/
def ent_chunks : List String → String
  | [] => ""
  | e :: r => "\"" ++ e ++ "\", " ++ ent_chunks r

/-! ### Helper lemmas -/

theorem tag3_ftq (t : String) : tag3 (ftq_predicate t) = ['t', 'o', '_'] := rfl

theorem tag3_entity (es : List String) : tag3 (entity_predicate es) = ['e', 'n', 't'] := rfl

theorem tag3_ftqd (t : String) : tag3 (ftq_display t) = ['t', 'e', 'x'] := rfl

theorem tag3_expl (es : List String) : tag3 (entity_explain es) = [' ', 'a', 'n'] := rfl

theorem tag3_lov (vals : List String) (h : vals ≠ []) :
    tag3 (lov_predicate "topic" vals) = ['t', 'o', 'p'] := by
  rw [lov_predicate, if_neg h]
  rfl

theorem tag3_date (s e : Nat) (nd : Bool) (m M : Nat) :
    tag3 (daterange_predicate "sent" (some s) (some e) nd m M) =
      (if nd then ['(', 's', 'e'] else ['s', 'e', 'n']) := by
  cases nd <;> rfl

theorem ftq_predicate_ne_empty (t : String) : ftq_predicate t ≠ "" := by
  intro h
  have := congrArg tag3 h
  rw [tag3_ftq] at this
  exact absurd this (by decide)

theorem lov_predicate_nil : lov_predicate "topic" [] = "" := rfl

theorem daterange_predicate_none (nd : Bool) (m M : Nat) :
    daterange_predicate "sent" none none nd m M = "" := rfl

theorem entity_predicate_ne_empty (es : List String) : entity_predicate es ≠ "" := by
  intro h
  have := congrArg tag3 h
  rw [tag3_entity] at this
  exact absurd this (by decide)

theorem lov_predicate_ne_empty (vals : List String) (h : vals ≠ []) :
    lov_predicate "topic" vals ≠ "" := by
  intro heq
  have := congrArg tag3 heq
  rw [tag3_lov vals h] at this
  exact absurd this (by decide)

theorem daterange_predicate_ne_empty (s e : Nat) (nd : Bool) (m M : Nat) :
    daterange_predicate "sent" (some s) (some e) nd m M ≠ "" := by
  intro heq
  have := congrArg tag3 heq
  rw [tag3_date] at this
  cases nd <;> exact absurd this (by decide)

theorem ftq_display_ne_empty (t : String) : ftq_display t ≠ "" := by
  intro h
  have := congrArg tag3 h
  rw [tag3_ftqd] at this
  exact absurd this (by decide)

theorem entity_explain_ne_empty (es : List String) : entity_explain es ≠ "" := by
  intro h
  have := congrArg tag3 h
  rw [tag3_expl] at this
  exact absurd this (by decide)

/-- Exactly the predicates of the present filters end up in the SQL list, in
pipeline order. -/
theorem sql_predicates_eq (f : Filters) :
    sql_predicates f =
      (if f.ftq_text = "" then [] else [ftq_predicate (replace_quotes f.ftq_text)]) ++
      (if entities f = [] then [] else [entity_predicate (entities f)]) ++
      (if f.topics = [] then [] else [lov_predicate "topic" f.topics]) ++
      (match f.dates with
       | none => []
       | some (s, e) => [daterange_predicate "sent" (some s) (some e) f.null_date MIN_SENT MAX_SENT]) := by
  unfold sql_predicates
  rcases f with ⟨ftq, ps, os, ls, tops, dts, nd⟩
  by_cases hq : ftq = "" <;>
  by_cases he : entities ⟨ftq, ps, os, ls, tops, dts, nd⟩ = [] <;>
  by_cases ht : tops = [] <;>
  rcases dts with _ | ⟨s, e⟩ <;>
    simp [entities, hq, he, ht, add_predicate, convert_daterange,
      ftq_predicate_ne_empty, entity_predicate_ne_empty,
      lov_predicate_nil, lov_predicate_ne_empty, daterange_predicate_none,
      daterange_predicate_ne_empty] <;>
    (split <;> rfl)

/-- Exactly the display forms of the present filters end up in the display
list, in the same pipeline order. -/
theorem display_predicates_eq (f : Filters) :
    display_predicates f =
      (if f.ftq_text = "" then [] else [ftq_display (replace_quotes f.ftq_text)]) ++
      (if entities f = [] then [] else [entity_explain (entities f)]) ++
      (if f.topics = [] then [] else [lov_predicate "topic" f.topics]) ++
      (match f.dates with
       | none => []
       | some (s, e) => [daterange_predicate "sent" (some s) (some e) f.null_date MIN_SENT MAX_SENT]) := by
  unfold display_predicates
  rcases f with ⟨ftq, ps, os, ls, tops, dts, nd⟩
  by_cases hq : ftq = "" <;>
  by_cases he : entities ⟨ftq, ps, os, ls, tops, dts, nd⟩ = [] <;>
  by_cases ht : tops = [] <;>
  rcases dts with _ | ⟨s, e⟩ <;>
    simp [entities, hq, he, ht, add_predicate, convert_daterange,
      ftq_display_ne_empty, entity_explain_ne_empty,
      lov_predicate_nil, lov_predicate_ne_empty, daterange_predicate_none,
      daterange_predicate_ne_empty] <;>
    (split <;> rfl)

/-! ### Claim theorems -/

/-- C1: for any subset of the four filters, the predicate list holds exactly
the predicates of the present filters; the where clause parenthesizes each
and joins them with `and`, and it is empty — no dangling `and` or `where` —
when every filter is absent. -/
theorem where_clause_exactly_present_predicates (f : Filters) :
    sql_predicates f =
      (if f.ftq_text = "" then [] else [ftq_predicate (replace_quotes f.ftq_text)]) ++
      (if entities f = [] then [] else [entity_predicate (entities f)]) ++
      (if f.topics = [] then [] else [lov_predicate "topic" f.topics]) ++
      (match f.dates with
       | none => []
       | some (s, e) => [daterange_predicate "sent" (some s) (some e) f.null_date MIN_SENT MAX_SENT]) ∧
    where_clause (sql_predicates f) =
      (if sql_predicates f = [] then ""
       else " where " ++ String.intercalate " and " ((sql_predicates f).map (fun p => "(" ++ p ++ ")"))) ∧
    ((f.ftq_text = "" ∧ entities f = [] ∧ f.topics = [] ∧ f.dates = none) →
      where_clause (sql_predicates f) = "") := by
  refine ⟨sql_predicates_eq f, rfl, ?_⟩
  rintro ⟨h1, h2, h3, h4⟩
  rw [sql_predicates_eq]
  simp [h1, h2, h3, h4, where_clause]

/-- Witness for C1 at the empty form: the generated clause is the empty
string. -/
theorem where_clause_exactly_present_predicates_witness :
    where_clause (sql_predicates ⟨"", [], [], [], [], none, true⟩) = "" :=
  (where_clause_exactly_present_predicates ⟨"", [], [], [], [], none, true⟩).2.2
    ⟨rfl, rfl, rfl, rfl⟩

/-- C2: the display string and the SQL clause are built from the same number
of predicates: each filter contributes to both lists or to neither. -/
theorem display_count_matches_sql_count (f : Filters) :
    (display_predicates f).length = (sql_predicates f).length := by
  rw [sql_predicates_eq, display_predicates_eq]
  by_cases hq : f.ftq_text = "" <;>
  by_cases he : entities f = [] <;>
  by_cases ht : f.topics = [] <;>
  rcases hd : f.dates with _ | ⟨s, e⟩ <;>
    simp [hq, he, ht, hd]

theorem str_append_assoc (a b c : String) : a ++ b ++ c = a ++ (b ++ c) := by
  apply String.ext
  simp [String.data_append, List.append_assoc]

theorem str_append_empty (a : String) : a ++ "" = a := by
  apply String.ext
  simp [String.data_append]

theorem pyDropRight_comma (s : String) : pyDropRight (s ++ ", ") 2 = s := by
  apply String.ext
  simp [pyDropRight, String.data_append]

theorem foldl_ent_chunks (es : List String) (a : String) :
    es.foldl (fun acc e => acc ++ "\"" ++ e ++ "\", ") a = a ++ ent_chunks es := by
  induction es generalizing a with
  | nil => simp [ent_chunks, str_append_empty]
  | cons e r ih =>
    rw [List.foldl_cons, ih]
    simp only [ent_chunks, str_append_assoc]

theorem ent_chunks_eq (es : List String) (h : es ≠ []) :
    ent_chunks es = quoted_list es ++ ", " := by
  induction es with
  | nil => exact absurd rfl h
  | cons e r ih =>
    cases r with
    | nil =>
      have hq : quoted_list [e] = "\"" ++ e ++ "\"" := rfl
      rw [ent_chunks, ent_chunks, str_append_empty, hq]
      simp only [str_append_assoc]
      rfl
    | cons e2 r2 =>
      have hq : quoted_list (e :: e2 :: r2) = "\"" ++ e ++ "\", " ++ quoted_list (e2 :: r2) := rfl
      rw [ent_chunks, ih (by simp), hq]
      simp only [str_append_assoc]

theorem entincl_eq (es : List String) (h : es ≠ []) :
    entincl es = "\x27\x7b" ++ quoted_list es ++ "\x7d\x27" := by
  rw [entincl, foldl_ent_chunks, ent_chunks_eq es h, ← str_append_assoc, pyDropRight_comma]

theorem ftq_ne_entity (t : String) (es : List String) :
    ftq_predicate t ≠ entity_predicate es := by
  intro h
  have := congrArg tag3 h
  rw [tag3_ftq, tag3_entity] at this
  exact absurd this (by decide)

theorem ftq_ne_lov (t : String) (vals : List String) (hv : vals ≠ []) :
    ftq_predicate t ≠ lov_predicate "topic" vals := by
  intro h
  have := congrArg tag3 h
  rw [tag3_ftq, tag3_lov vals hv] at this
  exact absurd this (by decide)

theorem ftq_ne_date (t : String) (s e : Nat) (nd : Bool) (m M : Nat) :
    ftq_predicate t ≠ daterange_predicate "sent" (some s) (some e) nd m M := by
  intro h
  have := congrArg tag3 h
  rw [tag3_ftq, tag3_date] at this
  cases nd <;> exact absurd this (by decide)

theorem entity_ne_lov (es : List String) (vals : List String) (hv : vals ≠ []) :
    entity_predicate es ≠ lov_predicate "topic" vals := by
  intro h
  have := congrArg tag3 h
  rw [tag3_entity, tag3_lov vals hv] at this
  exact absurd this (by decide)

theorem entity_ne_date (es : List String) (s e : Nat) (nd : Bool) (m M : Nat) :
    entity_predicate es ≠ daterange_predicate "sent" (some s) (some e) nd m M := by
  intro h
  have := congrArg tag3 h
  rw [tag3_entity, tag3_date] at this
  cases nd <;> exact absurd this (by decide)

theorem lov_ne_date (vals : List String) (hv : vals ≠ []) (s e : Nat) (nd : Bool) (m M : Nat) :
    lov_predicate "topic" vals ≠ daterange_predicate "sent" (some s) (some e) nd m M := by
  intro h
  have := congrArg tag3 h
  rw [tag3_lov vals hv, tag3_date] at this
  cases nd <;> exact absurd this (by decide)

/-- Every member of the SQL predicate list is the predicate of one of the
present filters. -/
theorem mem_sql_predicates (f : Filters) (p : String) (hp : p ∈ sql_predicates f) :
    (f.ftq_text ≠ "" ∧ p = ftq_predicate (replace_quotes f.ftq_text)) ∨
    (entities f ≠ [] ∧ p = entity_predicate (entities f)) ∨
    (f.topics ≠ [] ∧ p = lov_predicate "topic" f.topics) ∨
    (∃ s e, f.dates = some (s, e) ∧
      p = daterange_predicate "sent" (some s) (some e) f.null_date MIN_SENT MAX_SENT) := by
  rw [sql_predicates_eq] at hp
  by_cases hq : f.ftq_text = "" <;>
  by_cases he : entities f = [] <;>
  by_cases ht : f.topics = [] <;>
  rcases hd : f.dates with _ | ⟨s, e⟩ <;>
    simp [hq, he, ht, hd] at hp <;>
    tauto

/-- C3: when the full-text search string is non-empty, the generated query
holds the PostgreSQL full-text predicate matching to_tsvector of the body
against websearch_to_tsquery of the (quote-cleaned) search text; when it is
empty, no full-text predicate is added. -/
theorem fulltext_filter_semantics (f : Filters) :
    (f.ftq_text ≠ "" → ftq_predicate (replace_quotes f.ftq_text) ∈ sql_predicates f) ∧
    (f.ftq_text = "" → ∀ t, ftq_predicate t ∉ sql_predicates f) := by
  constructor
  · intro hq
    rw [sql_predicates_eq]
    simp [hq]
  · intro hq t hmem
    rcases mem_sql_predicates f _ hmem with ⟨h, _⟩ | ⟨_, hp⟩ | ⟨ht, hp⟩ | ⟨s, e, _, hp⟩
    · exact h hq
    · exact ftq_ne_entity _ _ hp
    · exact ftq_ne_lov _ _ ht hp
    · exact ftq_ne_date _ _ _ _ _ _ hp

theorem fulltext_filter_semantics_witness :
    ftq_predicate (replace_quotes "flu") ∈ sql_predicates ⟨"flu", [], [], [], [], none, true⟩ ∧
    ftq_predicate "x" ∉ sql_predicates ⟨"", [], [], [], [], none, true⟩ :=
  ⟨(fulltext_filter_semantics ⟨"flu", [], [], [], [], none, true⟩).1 (by decide),
   (fulltext_filter_semantics ⟨"", [], [], [], [], none, true⟩).2 rfl "x"⟩

/-- C4: when at least one person, organization or location is selected, the
predicate list holds the array-overlap predicate `entities && <array>::text[]`
whose array literal lists exactly the selected names — persons, then
organizations, then locations; with no selection, no entity predicate is
added. -/
theorem entity_filter_semantics (f : Filters) :
    (entities f ≠ [] →
      entity_predicate (entities f) ∈ sql_predicates f ∧
      entity_predicate (entities f) = "entities && " ++ entincl (entities f) ++ "::text[]" ∧
      entincl (entities f) = "\x27\x7b" ++ quoted_list (entities f) ++ "\x7d\x27" ∧
      entities f = f.persons ++ f.orgs ++ f.locations) ∧
    (entities f = [] → ∀ es, entity_predicate es ∉ sql_predicates f) := by
  constructor
  · intro he
    refine ⟨?_, rfl, entincl_eq _ he, rfl⟩
    rw [sql_predicates_eq]
    simp [he]
  · intro he es hmem
    rcases mem_sql_predicates f _ hmem with ⟨_, hp⟩ | ⟨h, _⟩ | ⟨ht, hp⟩ | ⟨s, e, _, hp⟩
    · exact ftq_ne_entity _ _ hp.symm
    · exact h he
    · exact entity_ne_lov _ _ ht hp
    · exact entity_ne_date _ _ _ _ _ _ hp

theorem entity_filter_semantics_witness :
    entity_predicate (entities ⟨"", ["P1"], ["O1"], [], [], none, true⟩) ∈
      sql_predicates ⟨"", ["P1"], ["O1"], [], [], none, true⟩ ∧
    entincl (entities ⟨"", ["P1"], ["O1"], [], [], none, true⟩) =
      "\x27\x7b\"P1\", \"O1\"\x7d\x27" := by
  have h := (entity_filter_semantics ⟨"", ["P1"], ["O1"], [], [], none, true⟩).1 (by decide)
  exact ⟨h.1, by rw [h.2.2.1]; rfl⟩

/-- C5: when at least one topic is selected the predicate list holds the
list-of-values predicate whose row-level meaning is topic equality with one of
the selected topics; with no selection the predicate is empty and no topic
predicate is added. -/
theorem topic_filter_semantics (f : Filters) :
    (f.topics ≠ [] →
      lov_predicate "topic" f.topics ∈ sql_predicates f ∧
      ∀ rowtopic, lov_sat rowtopic f.topics = true ↔ rowtopic ∈ f.topics) ∧
    (f.topics = [] →
      lov_predicate "topic" f.topics = "" ∧
      ∀ vals, vals ≠ [] → lov_predicate "topic" vals ∉ sql_predicates f) := by
  constructor
  · intro ht
    refine ⟨?_, ?_⟩
    · rw [sql_predicates_eq]
      simp [ht]
    · intro rt
      simp [lov_sat]
  · intro ht
    refine ⟨by simp [ht, lov_predicate], ?_⟩
    intro vals hv hmem
    rcases mem_sql_predicates f _ hmem with ⟨_, hp⟩ | ⟨_, hp⟩ | ⟨h, _⟩ | ⟨s, e, _, hp⟩
    · exact ftq_ne_lov _ _ hv hp.symm
    · exact entity_ne_lov _ _ hv hp.symm
    · exact h ht
    · exact lov_ne_date _ hv _ _ _ _ _ hp

theorem topic_filter_semantics_witness :
    lov_predicate "topic" ["vaccines"] ∈
      sql_predicates ⟨"", [], [], [], ["vaccines"], none, true⟩ ∧
    lov_sat "vaccines" ["vaccines"] = true := by
  have h := (topic_filter_semantics ⟨"", [], [], [], ["vaccines"], none, true⟩).1 (by decide)
  exact ⟨h.1, (h.2 "vaccines").mpr (by simp)⟩

/-- C6: with a date range selected, the predicate list holds the date
predicate on the sent column, whose row-level meaning is the inclusive range
from start to end, a null sent date passing exactly when the
include-documents-without-a-date flag is set. -/
theorem date_filter_semantics (f : Filters) (s e : Nat) (hd : f.dates = some (s, e)) :
    daterange_predicate "sent" (some s) (some e) f.null_date MIN_SENT MAX_SENT ∈ sql_predicates f ∧
    (∀ sent : Option Nat,
      daterange_sat sent s e f.null_date = true ↔
        ((∃ d, sent = some d ∧ s ≤ d ∧ d ≤ e) ∨ (sent = none ∧ f.null_date = true))) := by
  constructor
  · rw [sql_predicates_eq]
    simp [hd]
  · intro sent
    rcases sent with _ | d <;> cases hn : f.null_date <;> simp [daterange_sat, hn]

theorem date_filter_semantics_witness :
    daterange_predicate "sent" (some 5) (some 9) true MIN_SENT MAX_SENT ∈
      sql_predicates ⟨"", [], [], [], [], some (5, 9), true⟩ ∧
    daterange_sat (some 7) 5 9 true = true := by
  have h := date_filter_semantics ⟨"", [], [], [], [], some (5, 9), true⟩ 5 9 rfl
  exact ⟨h.1, (h.2 (some 7)).mpr (Or.inl ⟨7, rfl, by decide, by decide⟩)⟩

/-- C7: for a selected email row exactly one HTTP GET is issued, for its
preview PDF URL; a 200 response renders the PDF content, and any other status
renders no PDF but the inline error message carrying the fetched URL and the
status code. -/
theorem preview_fetch_semantics (url : String) (http_get : String → HttpResponse) :
    (preview_email url http_get).1 = [url] ∧
    ((http_get url).status_code = 200 →
      (preview_email url http_get).2 = PreviewOutput.pdf (http_get url).content) ∧
    ((http_get url).status_code ≠ 200 →
      (preview_email url http_get).2 =
        PreviewOutput.failure (failed_download_msg url (http_get url).status_code) ∧
      failed_download_msg url (http_get url).status_code =
        "Failed to download " ++ url ++
          (", " ++ contsp17 ++ "status code: " ++ toString (http_get url).status_code ++ ".")) := by
  refine ⟨rfl, ?_, ?_⟩
  · intro h
    simp [preview_email, h]
  · intro h
    refine ⟨by simp [preview_email, h], ?_⟩
    rw [failed_download_msg]
    simp only [str_append_assoc]

theorem preview_fetch_semantics_witness :
    (preview_email "u" (fun _ => ⟨200, "PDF"⟩)).1 = ["u"] ∧
    (preview_email "u" (fun _ => ⟨200, "PDF"⟩)).2 = PreviewOutput.pdf "PDF" ∧
    (preview_email "v" (fun _ => ⟨404, ""⟩)).2 =
      PreviewOutput.failure (failed_download_msg "v" 404) :=
  ⟨(preview_fetch_semantics "u" (fun _ => ⟨200, "PDF"⟩)).1,
   (preview_fetch_semantics "u" (fun _ => ⟨200, "PDF"⟩)).2.1 rfl,
   ((preview_fetch_semantics "v" (fun _ => ⟨404, ""⟩)).2.2 (by decide)).1⟩

/-- C8: the executed email query always ends in `limit 2000`, the returned
result set never holds more than `MAX_LIMIT` rows, and the results header
shows the `(max limit)` marker exactly when the returned row count equals
`MAX_LIMIT`. -/
theorem query_limit_semantics (f : Filters) :
    emqry f = selfrom ++ where_clause (sql_predicates f) ++ " limit 2000" ∧
    (∀ rows : List EmailRow, (apply_limit rows).length ≤ MAX_LIMIT) ∧
    (∀ emcnt : Nat, max_limit_marker emcnt = "(max limit)" ↔ emcnt = MAX_LIMIT) := by
  refine ⟨rfl, ?_, ?_⟩
  · intro rows
    simp only [apply_limit, List.length_take]
    omega
  · intro n
    constructor
    · intro h
      by_contra hn
      rw [max_limit_marker, if_neg hn] at h
      exact absurd h (by decide)
    · intro h
      rw [max_limit_marker, if_pos h]

theorem query_limit_semantics_witness :
    emqry ⟨"", [], [], [], [], none, true⟩ =
      selfrom ++ where_clause (sql_predicates ⟨"", [], [], [], [], none, true⟩) ++ " limit 2000" ∧
    max_limit_marker 2000 = "(max limit)" :=
  ⟨(query_limit_semantics ⟨"", [], [], [], [], none, true⟩).1,
   ((query_limit_semantics ⟨"", [], [], [], [], none, true⟩).2.2 2000).mpr rfl⟩

/-- Replacing single quotes by double quotes adds the single-quote count to
the double-quote count. -/
theorem count_map_quotes (l : List Char) :
    (l.map (fun c => if c = squote then dquote else c)).count dquote =
      l.count dquote + l.count squote := by
  have hne : dquote ≠ squote := by decide
  induction l with
  | nil => rfl
  | cons c r ih =>
    by_cases h : c = squote
    · subst h
      rw [List.map_cons, if_pos rfl, List.count_cons, List.count_cons, List.count_cons, ih]
      simp [hne, Ne.symm hne]
      omega
    · rw [List.map_cons, if_neg h, List.count_cons, List.count_cons, List.count_cons, ih]
      by_cases h2 : c = dquote
      · simp [h, h2, hne]
        omega
      · simp [h, h2, hne]

/-- C9: the cleanup applied to a non-empty search text before interpolation
maps every single quote to a double quote and changes nothing else, so the
interpolated text holds no single quote: its length is preserved and its
double-quote count grows by exactly the original single-quote count. -/
theorem quote_replacement (s : String) :
    (replace_quotes s).data = s.data.map (fun c => if c = squote then dquote else c) ∧
    (replace_quotes s).data.all (fun c => !(c == squote)) = true ∧
    (replace_quotes s).data.count dquote = s.data.count dquote + s.data.count squote ∧
    (replace_quotes s).length = s.length := by
  refine ⟨rfl, ?_, count_map_quotes s.data, ?_⟩
  · simp only [replace_quotes, List.all_eq_true, List.mem_map]
    rintro b ⟨c, _, rfl⟩
    by_cases h : c = squote
    · rw [if_pos h]
      decide
    · rw [if_neg h]
      simp [h]
  · show (replace_quotes s).data.length = s.data.length
    simp [replace_quotes]

/-- C10: the results grid height equals `min (50 + 16 * n) 260` for a result
count `n`; it never exceeds 260 and is monotone in the number of rows. -/
theorem grid_height_formula (m n : Nat) (h : m ≤ n) :
    total_height n = min (50 + 16 * n) 260 ∧
    total_height n ≤ 260 ∧
    total_height m ≤ total_height n := by
  refine ⟨rfl, Nat.min_le_right _ _, ?_⟩
  simp only [total_height, base_height, row_height, max_height, Nat.min_def]
  split_ifs <;> omega

theorem grid_height_formula_witness :
    total_height 10 = min (50 + 16 * 10) 260 ∧ total_height 10 ≤ 260 ∧
    total_height 3 ≤ total_height 10 :=
  grid_height_formula 3 10 (by decide)

end C19
